import Mathlib

/-!
Shallow embedding of the rubefunge-93 Befunge interpreter
(src/befunge.rs) and verification of its specification.

Modelling conventions:
* Rust `u32` values are `Nat`; arithmetic that can overflow is taken
  modulo 2^32 (the two's-complement wrapping semantics of release
  builds, which is also what the spec's arithmetic table assumes).
* Every Rust panic site (Vec index out of bounds, `Option::unwrap`,
  division or remainder by zero, the unreachable arm of the random
  match) is modelled as an `Except` error.  All of these abort the
  process in the Rust code; none of them is a typed, catchable error.
* `thread_rng().gen_range(0,4)` in the `?` arm is modelled by an
  explicit argument `r : Nat`; the generator's contract `r < 4`
  becomes a hypothesis where needed.
* `print!` output goes to stdout and is not part of any interpreter
  state; the printed text is not modelled, but the evaluation of the
  printed expression (including the panicking
  `char::from_u32(..).unwrap()` in the `,` arm) is.
-/

namespace Befunge

/-- The runtime failures of the Rust code.  Every constructor is a
panic site (process abort) in `befunge.rs`; the code defines no
recoverable error type at all. -/
inductive RtError where
  /-- A `Vec` indexing panic: `values[0]` on an empty queue, or
  `instructions[r][c]` with an out-of-bounds row or column. -/
  | indexPanic
  /-- The panic of `char::from_u32(v).unwrap()` when `v` is not a
  valid Unicode scalar value. -/
  | charUnwrapPanic
  /-- The panic of `u32` division or remainder by zero. -/
  | divByZero
  /-- The explicit `panic!` in the `?` arm, reachable only if the
  random draw fell outside `0..4`. -/
  | randPanic
deriving DecidableEq, Repr

/-- Wrapping 32-bit addition (`b + a` on `u32`, release semantics). -/
def u32add (b a : Nat) : Nat := (b + a) % 4294967296

/-- Wrapping 32-bit subtraction (`b - a` on `u32`, release
semantics): the two's-complement value of `b - a`. -/
def u32sub (b a : Nat) : Nat :=
  (b + (4294967296 - a % 4294967296)) % 4294967296

/-- Wrapping 32-bit multiplication (`b * a` on `u32`). -/
def u32mul (b a : Nat) : Nat := (b * a) % 4294967296

/-- Rust `char::from_u32(v).unwrap()`: the character with codepoint `v`,
panicking when `v` is a surrogate or above `0x10FFFF`. -/
def char_from_u32 (v : Nat) : Except RtError Char :=
  if _h : Nat.isValidChar v then .ok (Char.ofNat v)
  else .error .charUnwrapPanic

/-- The Befunge program stack (`struct Stack`).  The head of the list
is the top of the stack (the last element of the Rust `Vec`). -/
structure Stack where
  stack : List Nat
deriving DecidableEq, Repr

/-- Rust `Stack::default()`: an empty stack. -/
def Stack.default : Stack := ⟨[]⟩

/-- Rust `Stack::pop`: returns 0 if the stack is empty and the top item
otherwise, together with the remaining stack. -/
def Stack.pop (s : Stack) : Nat × Stack :=
  match s.stack with
  | [] => (0, s)
  | x :: rest => (x, ⟨rest⟩)

/-- Rust `Stack::push`. -/
def Stack.push (s : Stack) (item : Nat) : Stack :=
  ⟨item :: s.stack⟩

/-- Rust `Stack::duplicate_top`: duplicates the top item; pushes two zeros
if the stack is empty. -/
def Stack.duplicate_top (s : Stack) : Stack :=
  match s.stack with
  | x :: rest => ⟨x :: x :: rest⟩
  | [] => ⟨[0, 0]⟩

/-- Rust `Stack::switch_top`: switches the two items at the top of the
stack, pushing zeros when fewer than two items exist.  The nested
match mirrors the nested `if let` ladder of the Rust code. -/
def Stack.switch_top (s : Stack) : Stack :=
  match s.stack with
  | [] =>
    -- Fill stack with two zeros.
    ⟨[0, 0]⟩
  | a :: rest =>
    match rest with
    | [] =>
      -- Push a back and a zero (the zero ends on top).
      ⟨[0, a]⟩
    | b :: rest2 =>
      -- Push in reverse order: a first, then b, so b ends on top.
      ⟨b :: a :: rest2⟩

/-- The Befunge program (`struct Program`): the queue of user values
and the jagged instruction grid. -/
structure Program where
  values : List Nat
  instructions : List (List Char)
deriving DecidableEq, Repr

/-- Rust `Program::new`. -/
def Program.new (values : List Nat) (instructions : List (List Char)) :
    Program :=
  { values := values, instructions := instructions }

/-- Rust `Program::lines`: number of lines in the program. -/
def Program.lines (p : Program) : Nat := p.instructions.length

/-- Rust `Program::chars_in_line`: number of characters in the given line;
`self.instructions[line]` panics when the line index is out of
bounds. -/
def Program.chars_in_line (p : Program) (line : Nat) :
    Except RtError Nat :=
  match p.instructions.get? line with
  | some row => .ok row.length
  | none => .error .indexPanic

/-- Rust `Program::next_value`: `self.values[0]` followed by
`split_off(1)`; the indexing panics when the queue is empty. -/
def Program.next_value (p : Program) : Except RtError (Nat × Program) :=
  match p.values with
  | [] => .error .indexPanic
  | v :: rest => .ok (v, { p with values := rest })

/-- Rust `Program::get_instruction_char` is
`self.instructions[pos[0]][pos[1]]`;
either indexing panics when out of bounds.  `pos.1` is `pos[0]` (the
outer, row index) and `pos.2` is `pos[1]` (the column index). -/
def Program.get_instruction_char (p : Program) (pos : Nat × Nat) :
    Except RtError Char :=
  match p.instructions.get? pos.1 with
  | none => .error .indexPanic
  | some row =>
    match row.get? pos.2 with
    | none => .error .indexPanic
    | some c => .ok c

/-- Rust `Program::set_instruction_char` is
`self.instructions[pos[0]][pos[1]] = c`, panicking when either index
is out of bounds. -/
def Program.set_instruction_char (p : Program) (pos : Nat × Nat)
    (c : Char) : Except RtError Program :=
  match p.instructions.get? pos.1 with
  | none => .error .indexPanic
  | some row =>
    if pos.2 < row.length then
      .ok { p with
            instructions := p.instructions.set pos.1 (row.set pos.2 c) }
    else .error .indexPanic

/-- Direction for the instruction pointer. -/
inductive Direction where
  | Up
  | Down
  | Left
  | Right
deriving DecidableEq, Repr

/-- Current state of the interpreter. -/
inductive State where
  | Normal
  | String
deriving DecidableEq, Repr

/-- Actions to be taken by the interpreter. -/
inductive Action where
  | ChangeDir (d : Direction)
  | ChangeState (s : State)
  | Trampoline
  | None
  | End
deriving DecidableEq, Repr

/-- The Befunge interpreter (`struct Interpreter`).  `pos.1` is
`pos[0]` (row) and `pos.2` is `pos[1]` (column). -/
structure Interpreter where
  stack : Stack
  direction : Direction
  state : State
  pos : Nat × Nat
  program : Program
deriving DecidableEq, Repr

/-- Rust `Interpreter::from_program`. -/
def Interpreter.from_program (program : Program) : Interpreter :=
  { stack := Stack.default
    direction := Direction.Right
    state := State.Normal
    pos := (0, 0)
    program := program }

/-- Rust `Interpreter::update_pos`: toroidal pointer advancement.  For
horizontal movement the wrap width is the current row's own length
(`chars_in_line(pos[0])`), whose lookup panics when `pos[0]` is out of
bounds.  `len - 1` is Rust `usize` subtraction, applied by the code
only via the equality test with a column that is in bounds whenever
the row is non-empty. -/
def Interpreter.update_pos (i : Interpreter) :
    Except RtError Interpreter :=
  match i.direction with
  | Direction.Right =>
    match i.program.chars_in_line i.pos.1 with
    | .error e => .error e
    | .ok len =>
      if i.pos.2 = len - 1 then
        .ok { i with pos := (i.pos.1, 0) }
      else
        .ok { i with pos := (i.pos.1, i.pos.2 + 1) }
  | Direction.Left =>
    if i.pos.2 = 0 then
      match i.program.chars_in_line i.pos.1 with
      | .error e => .error e
      | .ok len => .ok { i with pos := (i.pos.1, len - 1) }
    else
      .ok { i with pos := (i.pos.1, i.pos.2 - 1) }
  | Direction.Up =>
    if i.pos.1 = 0 then
      .ok { i with pos := (i.program.lines - 1, i.pos.2) }
    else
      .ok { i with pos := (i.pos.1 - 1, i.pos.2) }
  | Direction.Down =>
    if i.pos.1 = i.program.lines - 1 then
      .ok { i with pos := (0, i.pos.2) }
    else
      .ok { i with pos := (i.pos.1 + 1, i.pos.2) }

/-- Rust `Interpreter::process_instruction`.  The ordered `if` chain is the
Rust `match` on the instruction character (its arms are disjoint, so
the order is immaterial); `r` is the value drawn by
`thread_rng().gen_range(0,4)` for the `?` arm. -/
def Interpreter.process_instruction (r : Nat) (i : Interpreter)
    (instruction : Char) : Except RtError (Action × Interpreter) :=
  match i.state with
  | State.String =>
    if instruction = '"' then
      .ok (Action.ChangeState State.Normal, i)
    else
      .ok (Action.None, { i with stack := i.stack.push instruction.toNat })
  | State.Normal =>
    if '0' ≤ instruction ∧ instruction ≤ '9' then
      -- instruction.to_digit(10).unwrap()
      .ok (Action.None,
        { i with stack := i.stack.push (instruction.toNat - 48) })
    else if instruction = '+' then
      let (a, s1) := i.stack.pop
      let (b, s2) := s1.pop
      .ok (Action.None, { i with stack := s2.push (u32add b a) })
    else if instruction = '-' then
      let (a, s1) := i.stack.pop
      let (b, s2) := s1.pop
      .ok (Action.None, { i with stack := s2.push (u32sub b a) })
    else if instruction = '*' then
      let (a, s1) := i.stack.pop
      let (b, s2) := s1.pop
      .ok (Action.None, { i with stack := s2.push (u32mul b a) })
    else if instruction = '/' then
      let (a, s1) := i.stack.pop
      let (b, s2) := s1.pop
      if a = 0 then .error .divByZero
      else .ok (Action.None, { i with stack := s2.push (b / a) })
    else if instruction = '%' then
      let (a, s1) := i.stack.pop
      let (b, s2) := s1.pop
      if a = 0 then .error .divByZero
      else .ok (Action.None, { i with stack := s2.push (b % a) })
    else if instruction = '!' then
      let (a, s1) := i.stack.pop
      .ok (Action.None,
        { i with stack := s1.push (if a = 0 then 1 else 0) })
    else if instruction = Char.ofNat 96 then
      -- the backtick (greater-than) instruction
      let (a, s1) := i.stack.pop
      let (b, s2) := s1.pop
      .ok (Action.None,
        { i with stack := s2.push (if b > a then 1 else 0) })
    else if instruction = '>' then
      .ok (Action.ChangeDir Direction.Right, i)
    else if instruction = '<' then
      .ok (Action.ChangeDir Direction.Left, i)
    else if instruction = '^' then
      .ok (Action.ChangeDir Direction.Up, i)
    else if instruction = 'v' then
      .ok (Action.ChangeDir Direction.Down, i)
    else if instruction = '?' then
      match r with
      | 0 => .ok (Action.ChangeDir Direction.Right, i)
      | 1 => .ok (Action.ChangeDir Direction.Left, i)
      | 2 => .ok (Action.ChangeDir Direction.Up, i)
      | 3 => .ok (Action.ChangeDir Direction.Down, i)
      | _ => .error .randPanic
    else if instruction = '_' then
      let (a, s1) := i.stack.pop
      if a = 0 then
        .ok (Action.ChangeDir Direction.Right, { i with stack := s1 })
      else
        .ok (Action.ChangeDir Direction.Left, { i with stack := s1 })
    else if instruction = '|' then
      let (a, s1) := i.stack.pop
      if a = 0 then
        .ok (Action.ChangeDir Direction.Down, { i with stack := s1 })
      else
        .ok (Action.ChangeDir Direction.Up, { i with stack := s1 })
    else if instruction = '"' then
      .ok (Action.ChangeState State.String, i)
    else if instruction = ':' then
      .ok (Action.None, { i with stack := i.stack.duplicate_top })
    else if instruction = '\\' then
      .ok (Action.None, { i with stack := i.stack.switch_top })
    else if instruction = '$' then
      let (_, s1) := i.stack.pop
      .ok (Action.None, { i with stack := s1 })
    else if instruction = '.' then
      -- print!("{} ", self.stack.pop()): the text goes to stdout.
      let (_, s1) := i.stack.pop
      .ok (Action.None, { i with stack := s1 })
    else if instruction = ',' then
      -- print!("{} ", char::from_u32(self.stack.pop()).unwrap())
      let (a, s1) := i.stack.pop
      match char_from_u32 a with
      | .error e => .error e
      | .ok _ => .ok (Action.None, { i with stack := s1 })
    else if instruction = '#' then
      .ok (Action.Trampoline, i)
    else if instruction = 'p' then
      let (x, s1) := i.stack.pop
      let (y, s2) := s1.pop
      let (v, s3) := s2.pop
      -- char::from_u32(v).unwrap() is evaluated before the call to
      -- set_instruction_char([x as usize, y as usize], ..).
      match char_from_u32 v with
      | .error e => .error e
      | .ok c =>
        match i.program.set_instruction_char (x, y) c with
        | .error e => .error e
        | .ok p2 => .ok (Action.None, { i with stack := s3, program := p2 })
    else if instruction = 'g' then
      let (x, s1) := i.stack.pop
      let (y, s2) := s1.pop
      match i.program.get_instruction_char (x, y) with
      | .error e => .error e
      | .ok c =>
        .ok (Action.None, { i with stack := s2.push c.toNat })
    else if instruction = '&' then
      match i.program.next_value with
      | .error e => .error e
      | .ok (val, p2) =>
        .ok (Action.None, { i with stack := i.stack.push val, program := p2 })
    else if instruction = '~' then
      match i.program.next_value with
      | .error e => .error e
      | .ok (val, p2) =>
        .ok (Action.None, { i with stack := i.stack.push val, program := p2 })
    else if instruction = '@' then
      .ok (Action.End, i)
    else
      .ok (Action.None, i)

/-- The `match action` at the head of the `while` body of
`Interpreter::execute`: direction and state changes are applied,
`Trampoline` performs the extra `update_pos`, everything else is a
no-op. -/
def Interpreter.apply_action (a : Action) (i : Interpreter) :
    Except RtError Interpreter :=
  match a with
  | Action.ChangeDir d => .ok { i with direction := d }
  | Action.ChangeState s => .ok { i with state := s }
  | Action.Trampoline => i.update_pos
  | _ => .ok i

/-- One iteration of the `while` loop of `Interpreter::execute`: apply
the pending action, advance the position once, read the character
under the pointer and process it, yielding the next pending action. -/
def Interpreter.iter (a : Action) (r : Nat) (i : Interpreter) :
    Except RtError (Action × Interpreter) :=
  match Interpreter.apply_action a i with
  | .error e => .error e
  | .ok i1 =>
    match i1.update_pos with
    | .error e => .error e
    | .ok i2 =>
      match i2.program.get_instruction_char i2.pos with
      | .error e => .error e
      | .ok c => i2.process_instruction r c

/-- The `while action != Action::End` loop of `Interpreter::execute`,
with explicit fuel (the Rust loop has no built-in bound) and the
stream of random draws, one per iteration.  `ok none` means the fuel
ran out; `ok (some i)` is normal termination on `End`. -/
def Interpreter.run : Nat → List Nat → Action → Interpreter →
    Except RtError (Option Interpreter)
  | 0, _, _, _ => .ok none
  | fuel + 1, rands, a, i =>
    if a = Action.End then .ok (some i)
    else
      match i.iter a (rands.headD 0) with
      | .error e => .error e
      | .ok (a2, i2) => Interpreter.run fuel rands.tail a2 i2

/-- Rust `Interpreter::execute`: process the character under the initial
pointer, then run the loop. -/
def Interpreter.execute (fuel : Nat) (rands : List Nat)
    (i : Interpreter) : Except RtError (Option Interpreter) :=
  match i.program.get_instruction_char i.pos with
  | .error e => .error e
  | .ok c =>
    match i.process_instruction (rands.headD 0) c with
    | .error e => .error e
    | .ok (a, i2) => Interpreter.run fuel rands.tail a i2

/-- Pushing a whole list of values in order (left to right), used to
state the spec's "for all sequences of pushes" property. -/
def Stack.pushAll (s : Stack) (xs : List Nat) : Stack :=
  xs.foldl Stack.push s

/-- Popping `n` times, discarding the returned values. -/
def Stack.popN : Stack → Nat → Stack
  | s, 0 => s
  | s, n + 1 => Stack.popN s.pop.2 n

/-! ## Auxiliary lemmas about the stack -/

/-- Popping `n + 1` times is popping `n` times and then once more. -/
theorem Stack.popN_succ_pop (s : Stack) (n : Nat) :
    Stack.popN s (n + 1) = (Stack.popN s n).pop.2 := by
  induction n generalizing s with
  | zero => rfl
  | succ n ih =>
    show Stack.popN s.pop.2 (n + 1) = _
    rw [ih s.pop.2]
    rfl

/-- Popping as many times as were pushed restores the original stack. -/
theorem Stack.popN_pushAll (xs : List Nat) (s : Stack) :
    Stack.popN (Stack.pushAll s xs) xs.length = s := by
  induction xs generalizing s with
  | nil => rfl
  | cons x xs ih =>
    show Stack.popN (Stack.pushAll (s.push x) xs) (xs.length + 1) = s
    rw [Stack.popN_succ_pop, ih (s.push x)]
    rfl

/-- When the row index is in bounds, `chars_in_line` returns the
length of that row. -/
theorem chars_in_line_of_get (p : Program) (line : Nat) (row : List Char)
    (h : p.instructions.get? line = some row) :
    p.chars_in_line line = Except.ok row.length := by
  unfold Program.chars_in_line
  rw [h]

/-! ## Claims -/

/-- C6: `pop` on a non-empty stack removes and returns the most
recently pushed value; `pop` on an empty stack returns 0 and leaves
the stack unchanged (still empty); after any sequence of pushes, once
everything has been popped the stack is empty again and `pop` keeps
returning 0 — no underflow error exists anywhere in `Stack`. -/
theorem pop_underflow_semantics :
    (∀ (s : Stack) (x : Nat), (s.push x).pop = (x, s))
    ∧ Stack.default.pop = (0, Stack.default)
    ∧ (∀ xs : List Nat,
        Stack.popN (Stack.pushAll Stack.default xs) xs.length
          = Stack.default
        ∧ (Stack.popN (Stack.pushAll Stack.default xs) xs.length).pop
          = (0, Stack.default)) := by
  refine ⟨fun s x => rfl, rfl, fun xs => ⟨Stack.popN_pushAll xs _, ?_⟩⟩
  rw [Stack.popN_pushAll xs Stack.default]
  rfl

/-- C5: `switch_top` (the spec's `swap_top_two`) exchanges the top two
values when the stack has at least two elements; on a one-element
stack it pushes the element back and then a 0 (so the 0 is on top); on
an empty stack it produces two zeros.  The head of the list is the top
of the stack, so `⟨[0, 7]⟩` is the spec's `[7, 0]` (written
bottom-to-top) with 0 on top, and `⟨[3, 9]⟩` is the spec's `[9, 3]`.
The three list cases cover every stack, so this is exactly the spec's
fallback ladder. -/
theorem switch_top_fallback_ladder :
    Stack.switch_top ⟨[]⟩ = ⟨[0, 0]⟩
    ∧ (∀ a : Nat, Stack.switch_top ⟨[a]⟩ = ⟨[0, a]⟩)
    ∧ (∀ (a b : Nat) (t : List Nat),
        Stack.switch_top ⟨a :: b :: t⟩ = ⟨b :: a :: t⟩)
    ∧ Stack.switch_top ⟨[7]⟩ = ⟨[0, 7]⟩
    ∧ Stack.switch_top ⟨[9, 3]⟩ = ⟨[3, 9]⟩ :=
  ⟨rfl, fun _ => rfl, fun _ _ _ => rfl, rfl, rfl⟩

/-- C3: the `-` instruction pops `a` first, `b` second, and pushes the
32-bit value `b - a`; pushing 3 then 9 and executing `-` pushes
`3 - 9 = -6` as an unsigned 32-bit value, i.e. `4294967290`, which is
`(3 - 9) mod 2^32`. -/
theorem minus_pushes_b_sub_a :
    (∀ (i : Interpreter) (s : Stack) (a b : Nat),
      Interpreter.process_instruction 0
          { i with state := State.Normal, stack := (s.push b).push a } '-'
        = Except.ok (Action.None,
            { i with state := State.Normal, stack := s.push (u32sub b a) }))
    ∧ (∀ (i : Interpreter) (s : Stack),
      Interpreter.process_instruction 0
          { i with state := State.Normal, stack := (s.push 3).push 9 } '-'
        = Except.ok (Action.None,
            { i with state := State.Normal, stack := s.push 4294967290 }))
    ∧ u32sub 3 9 = 4294967290
    ∧ (4294967290 : Int) = (3 - 9 : Int) % (2 : Int) ^ 32 := by
  have hsub : u32sub 3 9 = 4294967290 := by decide
  refine ⟨fun i s a b => rfl, fun i s => ?_, hsub, by decide⟩
  have b1 : Interpreter.process_instruction 0
      { i with state := State.Normal, stack := (s.push 3).push 9 } '-'
      = Except.ok (Action.None,
          { i with state := State.Normal, stack := s.push (u32sub 3 9) }) := rfl
  rw [hsub] at b1
  exact b1

/-- C8: horizontal advancement wraps at the current row's own length:
with the pointer on a row of length `L`, moving Right from column
`L - 1` lands at column 0 of the same row, and moving Left from column
0 lands at column `L - 1` of the same row.  The wrap width is read
from `chars_in_line` of the current row, so rows of unequal length
wrap independently. -/
theorem horizontal_wrap_uses_row_length (i : Interpreter)
    (row : List Char)
    (hrow : i.program.instructions.get? i.pos.1 = some row)
    (hL : 0 < row.length) :
    Interpreter.update_pos
        { i with direction := Direction.Right,
                 pos := (i.pos.1, row.length - 1) }
      = Except.ok { i with direction := Direction.Right,
                           pos := (i.pos.1, 0) }
    ∧ Interpreter.update_pos
        { i with direction := Direction.Left, pos := (i.pos.1, 0) }
      = Except.ok { i with direction := Direction.Left,
                           pos := (i.pos.1, row.length - 1) } := by
  have hc : Program.chars_in_line i.program i.pos.1
      = Except.ok row.length := chars_in_line_of_get i.program i.pos.1 row hrow
  constructor
  · simp [Interpreter.update_pos, hc]
  · simp [Interpreter.update_pos, hc]

/-- C8 witness: both wraps on a concrete jagged grid, applied at row 0
(length 3) and at row 1 (length 1), whose wrap widths differ. -/
theorem horizontal_wrap_witness :
    ({ values := [], instructions := [['a', 'b', 'c'], ['d']] }
        : Program).instructions.get? 0 = some ['a', 'b', 'c']
    ∧ 0 < (['a', 'b', 'c'] : List Char).length
    ∧ (Interpreter.update_pos
        { stack := Stack.default, direction := Direction.Right,
          state := State.Normal,
          pos := (0, (['a', 'b', 'c'] : List Char).length - 1),
          program := { values := [],
                       instructions := [['a', 'b', 'c'], ['d']] } }
      = Except.ok
        { stack := Stack.default, direction := Direction.Right,
          state := State.Normal, pos := (0, 0),
          program := { values := [],
                       instructions := [['a', 'b', 'c'], ['d']] } }
      ∧ Interpreter.update_pos
        { stack := Stack.default, direction := Direction.Left,
          state := State.Normal, pos := (0, 0),
          program := { values := [],
                       instructions := [['a', 'b', 'c'], ['d']] } }
      = Except.ok
        { stack := Stack.default, direction := Direction.Left,
          state := State.Normal,
          pos := (0, (['a', 'b', 'c'] : List Char).length - 1),
          program := { values := [],
                       instructions := [['a', 'b', 'c'], ['d']] } }) :=
  ⟨rfl, by decide,
    horizontal_wrap_uses_row_length
      { stack := Stack.default, direction := Direction.Up,
        state := State.Normal, pos := (0, 0),
        program := { values := [],
                     instructions := [['a', 'b', 'c'], ['d']] } }
      ['a', 'b', 'c'] rfl (by decide)⟩

/-- C9: whenever the random draw lies in `0..4` (the contract of
`gen_range(0,4)`), the `?` instruction yields `ChangeDir` of one of
the four directions and never reaches the panic arm. -/
theorem random_dir_always_valid (i : Interpreter) (r : Nat)
    (h : r < 4) :
    ∃ d : Direction,
      Interpreter.process_instruction r { i with state := State.Normal } '?'
        = Except.ok (Action.ChangeDir d,
            { i with state := State.Normal }) :=
  match r, h with
  | 0, _ => ⟨Direction.Right, rfl⟩
  | 1, _ => ⟨Direction.Left, rfl⟩
  | 2, _ => ⟨Direction.Up, rfl⟩
  | 3, _ => ⟨Direction.Down, rfl⟩
  | n + 4, h => absurd h (by omega)

/-- C9 witness: the draw 2 on a concrete interpreter. -/
theorem random_dir_witness :
    (2 : Nat) < 4
    ∧ ∃ d : Direction,
      Interpreter.process_instruction 2
          { stack := Stack.default, direction := Direction.Right,
            state := State.Normal, pos := (0, 0),
            program := { values := [0], instructions := [['?']] } } '?'
        = Except.ok (Action.ChangeDir d,
          { stack := Stack.default, direction := Direction.Right,
            state := State.Normal, pos := (0, 0),
            program := { values := [0], instructions := [['?']] } }) :=
  ⟨by decide,
    random_dir_always_valid
      { stack := Stack.default, direction := Direction.Right,
        state := State.Normal, pos := (0, 0),
        program := { values := [0], instructions := [['?']] } }
      2 (by decide)⟩

/-- C10: in Normal mode, when the popped value `v` is a surrogate
codepoint (`0xD800..=0xDFFF`) or above `0x10FFFF`, both `,` and `p`
hit the `char::from_u32(v).unwrap()` panic — the run aborts with the
unwrap panic rather than any typed, catchable error. -/
theorem invalid_scalar_unwrap_panics (i : Interpreter) (v : Nat)
    (rest : List Nat)
    (h : (55296 ≤ v ∧ v ≤ 57343) ∨ 1114111 < v) :
    Interpreter.process_instruction 0
        { i with state := State.Normal, stack := ⟨v :: rest⟩ } ','
      = Except.error RtError.charUnwrapPanic
    ∧ ∀ x y : Nat,
      Interpreter.process_instruction 0
          { i with state := State.Normal,
                   stack := ⟨x :: y :: v :: rest⟩ } 'p'
        = Except.error RtError.charUnwrapPanic := by
  have hnv : ¬ Nat.isValidChar v := by
    unfold Nat.isValidChar
    omega
  have hcv : char_from_u32 v = Except.error RtError.charUnwrapPanic := by
    unfold char_from_u32
    rw [dif_neg hnv]
  constructor
  · have b1 : Interpreter.process_instruction 0
        { i with state := State.Normal, stack := ⟨v :: rest⟩ } ','
        = (match char_from_u32 v with
           | Except.error e => Except.error e
           | Except.ok _ =>
             Except.ok (Action.None,
               { i with state := State.Normal, stack := ⟨rest⟩ })) := rfl
    rw [hcv] at b1
    exact b1
  · intro x y
    have b1 : Interpreter.process_instruction 0
        { i with state := State.Normal,
                 stack := ⟨x :: y :: v :: rest⟩ } 'p'
        = (match char_from_u32 v with
           | Except.error e => Except.error e
           | Except.ok c =>
             match Program.set_instruction_char i.program (x, y) c with
             | Except.error e => Except.error e
             | Except.ok p2 =>
               Except.ok (Action.None,
                 { i with state := State.Normal, stack := ⟨rest⟩,
                          program := p2 })) := rfl
    rw [hcv] at b1
    exact b1

/-- C10 witness: the surrogate 0xD800 = 55296. -/
theorem invalid_scalar_witness :
    ((55296 ≤ (55296 : Nat) ∧ (55296 : Nat) ≤ 57343) ∨ 1114111 < (55296 : Nat))
    ∧ (Interpreter.process_instruction 0
        { stack := ⟨[55296]⟩, direction := Direction.Right,
          state := State.Normal, pos := (0, 0),
          program := { values := [], instructions := [[',']] } } ','
      = Except.error RtError.charUnwrapPanic
    ∧ ∀ x y : Nat,
      Interpreter.process_instruction 0
          { stack := ⟨x :: y :: 55296 :: []⟩, direction := Direction.Right,
            state := State.Normal, pos := (0, 0),
            program := { values := [], instructions := [[',']] } } 'p'
        = Except.error RtError.charUnwrapPanic) :=
  ⟨by decide,
    invalid_scalar_unwrap_panics
      { stack := ⟨[55296]⟩, direction := Direction.Right,
        state := State.Normal, pos := (0, 0),
        program := { values := [], instructions := [[',']] } }
      55296 [] (by decide)⟩

/-- C7: the dispatch of `#` in Normal mode yields `Trampoline`, and in
the execute loop a `Trampoline` action advances the position exactly
twice before the next character is read (so the cell after `#` is
never dispatched), while every other non-`End` pending action advances
it exactly once after being applied. -/
theorem trampoline_advances_twice (i : Interpreter) (r : Nat) :
    Interpreter.process_instruction r { i with state := State.Normal } '#'
      = Except.ok (Action.Trampoline, { i with state := State.Normal })
    ∧ Interpreter.iter Action.Trampoline r i
      = (match i.update_pos with
         | Except.error e => Except.error e
         | Except.ok i1 =>
           match i1.update_pos with
           | Except.error e => Except.error e
           | Except.ok i2 =>
             match i2.program.get_instruction_char i2.pos with
             | Except.error e => Except.error e
             | Except.ok c => i2.process_instruction r c)
    ∧ Interpreter.iter Action.None r i
      = (match i.update_pos with
         | Except.error e => Except.error e
         | Except.ok i1 =>
           match i1.program.get_instruction_char i1.pos with
           | Except.error e => Except.error e
           | Except.ok c => i1.process_instruction r c)
    ∧ (∀ d : Direction,
      Interpreter.iter (Action.ChangeDir d) r i
      = (match Interpreter.update_pos { i with direction := d } with
         | Except.error e => Except.error e
         | Except.ok i1 =>
           match i1.program.get_instruction_char i1.pos with
           | Except.error e => Except.error e
           | Except.ok c => i1.process_instruction r c))
    ∧ (∀ s : State,
      Interpreter.iter (Action.ChangeState s) r i
      = (match Interpreter.update_pos { i with state := s } with
         | Except.error e => Except.error e
         | Except.ok i1 =>
           match i1.program.get_instruction_char i1.pos with
           | Except.error e => Except.error e
           | Except.ok c => i1.process_instruction r c)) :=
  ⟨rfl, rfl, rfl, fun _ => rfl, fun _ => rfl⟩

/-- C2 counterexample: executing `&` (or `~`) with an empty
supplied-value queue produces exactly the same generic `Vec` indexing
panic (`values[0]` out of bounds) as an out-of-bounds grid access by
`g` — the engine aborts; there is no distinct, caller-visible,
recoverable `EmptyInputError` anywhere in the code. -/
theorem empty_queue_counterexample :
    Interpreter.process_instruction 0
        { stack := ⟨[]⟩, direction := Direction.Right,
          state := State.Normal, pos := (0, 0),
          program := { values := [], instructions := [['&']] } } '&'
      = Except.error RtError.indexPanic
    ∧ Interpreter.process_instruction 0
        { stack := ⟨[]⟩, direction := Direction.Right,
          state := State.Normal, pos := (0, 0),
          program := { values := [], instructions := [['&']] } } '~'
      = Except.error RtError.indexPanic
    ∧ Interpreter.process_instruction 0
        { stack := ⟨[5, 5]⟩, direction := Direction.Right,
          state := State.Normal, pos := (0, 0),
          program := { values := [], instructions := [['&']] } } 'g'
      = Except.error RtError.indexPanic :=
  ⟨rfl, rfl, rfl⟩

/-- C2 amended: for every program whose supplied-value queue is empty,
executing `&` or `~` fails with the generic `Vec` index panic of
`values[0]` (a process abort, the same failure as any out-of-bounds
access), not with a distinct recoverable `EmptyInputError` and not
with a default stack value. -/
theorem empty_queue_panics (i : Interpreter)
    (h : i.program.values = []) :
    Interpreter.process_instruction 0 { i with state := State.Normal } '&'
      = Except.error RtError.indexPanic
    ∧ Interpreter.process_instruction 0 { i with state := State.Normal } '~'
      = Except.error RtError.indexPanic := by
  have hnv : Program.next_value i.program
      = Except.error RtError.indexPanic := by
    unfold Program.next_value
    rw [h]
  constructor
  · have b1 : Interpreter.process_instruction 0
        { i with state := State.Normal } '&'
        = (match Program.next_value i.program with
           | Except.error e => Except.error e
           | Except.ok (val, p2) =>
             Except.ok (Action.None,
               { i with state := State.Normal,
                        stack := i.stack.push val, program := p2 })) := rfl
    rw [hnv] at b1
    exact b1
  · have b1 : Interpreter.process_instruction 0
        { i with state := State.Normal } '~'
        = (match Program.next_value i.program with
           | Except.error e => Except.error e
           | Except.ok (val, p2) =>
             Except.ok (Action.None,
               { i with state := State.Normal,
                        stack := i.stack.push val, program := p2 })) := rfl
    rw [hnv] at b1
    exact b1

/-- C2 witness: a concrete interpreter with an exhausted queue. -/
theorem empty_queue_witness :
    ({ values := [], instructions := [['&']] } : Program).values = []
    ∧ (Interpreter.process_instruction 0
        { stack := ⟨[]⟩, direction := Direction.Right,
          state := State.Normal, pos := (0, 0),
          program := { values := [], instructions := [['&']] } } '&'
      = Except.error RtError.indexPanic
    ∧ Interpreter.process_instruction 0
        { stack := ⟨[]⟩, direction := Direction.Right,
          state := State.Normal, pos := (0, 0),
          program := { values := [], instructions := [['&']] } } '~'
      = Except.error RtError.indexPanic) :=
  ⟨rfl,
    empty_queue_panics
      { stack := ⟨[]⟩, direction := Direction.Right,
        state := State.Normal, pos := (0, 0),
        program := { values := [], instructions := [['&']] } } rfl⟩

/-- C1 counterexample: on the grid `[[A,B],[C,D]]`, `g` popping
`x = 0` then `y = 1` pushes the codepoint of `instructions[x][y]`,
the character `B` at row 0 column 1 (codepoint 66) — not the
character `C` at row `y = 1`, column `x = 0` (codepoint 67) that the
claim predicts; and `p` popping `x = 0`, `y = 1`, `v = 65` writes
`A` into `instructions[0][1]`, producing `[[A,A],[C,D]]` — not the
claimed write at row 1, column 0, which would give `[[A,B],[A,D]]`. -/
theorem put_get_counterexample :
    Interpreter.process_instruction 0
        { stack := ⟨[0, 1]⟩, direction := Direction.Right,
          state := State.Normal, pos := (0, 0),
          program := { values := [],
                       instructions := [['A', 'B'], ['C', 'D']] } } 'g'
      = Except.ok (Action.None,
        { stack := ⟨[66]⟩, direction := Direction.Right,
          state := State.Normal, pos := (0, 0),
          program := { values := [],
                       instructions := [['A', 'B'], ['C', 'D']] } })
    ∧ ('B'.toNat = 66 ∧ 'C'.toNat = 67 ∧ (66 : Nat) ≠ 67)
    ∧ Interpreter.process_instruction 0
        { stack := ⟨[0, 1, 65]⟩, direction := Direction.Right,
          state := State.Normal, pos := (0, 0),
          program := { values := [],
                       instructions := [['A', 'B'], ['C', 'D']] } } 'p'
      = Except.ok (Action.None,
        { stack := ⟨[]⟩, direction := Direction.Right,
          state := State.Normal, pos := (0, 0),
          program := { values := [],
                       instructions := [['A', 'A'], ['C', 'D']] } })
    ∧ ([['A', 'A'], ['C', 'D']] : List (List Char))
        ≠ [['A', 'B'], ['A', 'D']] :=
  ⟨rfl, ⟨rfl, rfl, by decide⟩, rfl, by decide⟩

/-- C1 amended: `p` pops x, then y, then v, and writes the character
with codepoint v into the grid cell at row = x, col = y; `g` pops x,
then y, and pushes the codepoint of the character at row = x,
col = y (the first popped value indexes the outer, row dimension). -/
theorem put_get_first_pop_is_row (i : Interpreter) (x y v : Nat)
    (rest : List Nat) (row : List Char) (c : Char)
    (hrow : i.program.instructions.get? x = some row)
    (hy : row.get? y = some c)
    (hv : Nat.isValidChar v) :
    Interpreter.process_instruction 0
        { i with state := State.Normal,
                 stack := ⟨x :: y :: v :: rest⟩ } 'p'
      = Except.ok (Action.None,
        { i with state := State.Normal, stack := ⟨rest⟩,
                 program :=
                   Program.mk i.program.values
                     (i.program.instructions.set x
                       (row.set y (Char.ofNat v))) })
    ∧ Interpreter.process_instruction 0
        { i with state := State.Normal, stack := ⟨x :: y :: rest⟩ } 'g'
      = Except.ok (Action.None,
        { i with state := State.Normal,
                 stack := ⟨c.toNat :: rest⟩ }) := by
  have hylen : y < row.length := by
    by_contra hcon
    push_neg at hcon
    rw [List.get?_eq_none.mpr hcon] at hy
    cases hy
  have hcv : char_from_u32 v = Except.ok (Char.ofNat v) := by
    unfold char_from_u32
    rw [dif_pos hv]
  have hset : Program.set_instruction_char i.program (x, y) (Char.ofNat v)
      = Except.ok (Program.mk i.program.values
          (i.program.instructions.set x (row.set y (Char.ofNat v)))) := by
    unfold Program.set_instruction_char
    rw [hrow]
    simp [hylen]
  have hget : Program.get_instruction_char i.program (x, y)
      = Except.ok c := by
    unfold Program.get_instruction_char
    rw [hrow]
    rw [List.get?_eq_getElem?] at hy
    simp [hy]
  constructor
  · have b1 : Interpreter.process_instruction 0
        { i with state := State.Normal,
                 stack := ⟨x :: y :: v :: rest⟩ } 'p'
        = (match char_from_u32 v with
           | Except.error e => Except.error e
           | Except.ok c2 =>
             match Program.set_instruction_char i.program (x, y) c2 with
             | Except.error e => Except.error e
             | Except.ok p2 =>
               Except.ok (Action.None,
                 { i with state := State.Normal, stack := ⟨rest⟩,
                          program := p2 })) := rfl
    rw [b1, hcv]
    simp [hset]
  · have b1 : Interpreter.process_instruction 0
        { i with state := State.Normal, stack := ⟨x :: y :: rest⟩ } 'g'
        = (match Program.get_instruction_char i.program (x, y) with
           | Except.error e => Except.error e
           | Except.ok c2 =>
             Except.ok (Action.None,
               { i with state := State.Normal,
                        stack := ⟨c2.toNat :: rest⟩ })) := rfl
    rw [b1, hget]

/-- C1 witness: the amended semantics on the concrete grid
`[[A,B],[C,D]]` with x = 0, y = 1, v = 65. -/
theorem put_get_witness :
    ({ values := [], instructions := [['A', 'B'], ['C', 'D']] }
        : Program).instructions.get? 0 = some ['A', 'B']
    ∧ (['A', 'B'] : List Char).get? 1 = some 'B'
    ∧ Nat.isValidChar 65
    ∧ (Interpreter.process_instruction 0
        { stack := ⟨[0, 1, 65]⟩, direction := Direction.Right,
          state := State.Normal, pos := (0, 0),
          program := { values := [],
                       instructions := [['A', 'B'], ['C', 'D']] } } 'p'
      = Except.ok (Action.None,
        { stack := ⟨[]⟩, direction := Direction.Right,
          state := State.Normal, pos := (0, 0),
          program :=
            Program.mk []
              (List.set [['A', 'B'], ['C', 'D']] 0
                (List.set ['A', 'B'] 1 (Char.ofNat 65))) })
    ∧ Interpreter.process_instruction 0
        { stack := ⟨[0, 1]⟩, direction := Direction.Right,
          state := State.Normal, pos := (0, 0),
          program := { values := [],
                       instructions := [['A', 'B'], ['C', 'D']] } } 'g'
      = Except.ok (Action.None,
        { stack := ⟨['B'.toNat]⟩, direction := Direction.Right,
          state := State.Normal, pos := (0, 0),
          program := { values := [],
                       instructions := [['A', 'B'], ['C', 'D']] } })) :=
  ⟨rfl, rfl, by decide,
    put_get_first_pop_is_row
      { stack := ⟨[0, 1, 65]⟩, direction := Direction.Right,
        state := State.Normal, pos := (0, 0),
        program := { values := [],
                     instructions := [['A', 'B'], ['C', 'D']] } }
      0 1 65 [] ['A', 'B'] 'B' rfl rfl (by decide)⟩

/-- C4 counterexample: on the jagged grid `[[' ','v'],['@']]` the
state with position (0, 1) and direction Down is reached after two
steps; advancing from it lands at (1, 1), but row 1 has length 1, so
the position is out of the current row's bounds — and the whole run
aborts with the index panic of `get_instruction_char`. -/
theorem jagged_oob_counterexample :
    Interpreter.update_pos
        { stack := ⟨[]⟩, direction := Direction.Down,
          state := State.Normal, pos := (0, 1),
          program := { values := [],
                       instructions := [[' ', 'v'], ['@']] } }
      = Except.ok
        { stack := ⟨[]⟩, direction := Direction.Down,
          state := State.Normal, pos := (1, 1),
          program := { values := [],
                       instructions := [[' ', 'v'], ['@']] } }
    ∧ Program.chars_in_line
        { values := [], instructions := [[' ', 'v'], ['@']] } 1
      = Except.ok 1
    ∧ ¬ (1 : Nat) < 1
    ∧ Interpreter.execute 8 []
        (Interpreter.from_program
          { values := [], instructions := [[' ', 'v'], ['@']] })
      = Except.error RtError.indexPanic :=
  ⟨rfl, rfl, by decide, rfl⟩

/-- C4 amended: pointer advancement preserves the row index bound
(row < line count) and, for horizontal moves, keeps the column within
the current row; but a vertical move keeps the column unchanged, so on
a jagged grid the column can exceed the length of the new row and the
next read index-panics — the claimed invariant holds only within a
row, not across rows of different lengths. -/
theorem update_pos_bounds (i : Interpreter) (row : List Char)
    (hlines : i.pos.1 < i.program.lines)
    (hrow : i.program.instructions.get? i.pos.1 = some row)
    (hcol : i.pos.2 < row.length) :
    (∀ j : Interpreter,
      Interpreter.update_pos { i with direction := Direction.Right }
          = Except.ok j
        ∨ Interpreter.update_pos { i with direction := Direction.Left }
          = Except.ok j →
      j.pos.1 = i.pos.1 ∧ j.pos.2 < row.length)
    ∧ (∀ j : Interpreter,
      Interpreter.update_pos { i with direction := Direction.Up }
          = Except.ok j
        ∨ Interpreter.update_pos { i with direction := Direction.Down }
          = Except.ok j →
      j.pos.1 < i.program.lines ∧ j.pos.2 = i.pos.2) := by
  have hc : Program.chars_in_line i.program i.pos.1
      = Except.ok row.length := chars_in_line_of_get i.program i.pos.1 row hrow
  constructor
  · rintro j (hup | hup)
    · have b1 : Interpreter.update_pos { i with direction := Direction.Right }
          = (match Program.chars_in_line i.program i.pos.1 with
             | Except.error e => Except.error e
             | Except.ok len =>
               if i.pos.2 = len - 1 then
                 Except.ok { i with direction := Direction.Right,
                                    pos := (i.pos.1, 0) }
               else
                 Except.ok { i with direction := Direction.Right,
                                    pos := (i.pos.1, i.pos.2 + 1) }) := rfl
      rw [hc] at b1
      have b2 : Interpreter.update_pos { i with direction := Direction.Right }
          = (if i.pos.2 = row.length - 1 then
               Except.ok { i with direction := Direction.Right,
                                  pos := (i.pos.1, 0) }
             else
               Except.ok { i with direction := Direction.Right,
                                  pos := (i.pos.1, i.pos.2 + 1) }) := b1
      rw [b2] at hup
      split at hup
      · injection hup with hj
        subst hj
        dsimp only
        omega
      · injection hup with hj
        subst hj
        dsimp only
        omega
    · have b1 : Interpreter.update_pos { i with direction := Direction.Left }
          = (if i.pos.2 = 0 then
               match Program.chars_in_line i.program i.pos.1 with
               | Except.error e => Except.error e
               | Except.ok len =>
                 Except.ok { i with direction := Direction.Left,
                                    pos := (i.pos.1, len - 1) }
             else
               Except.ok { i with direction := Direction.Left,
                                  pos := (i.pos.1, i.pos.2 - 1) }) := rfl
      rw [b1] at hup
      split at hup
      · rw [hc] at hup
        have hup2 : Except.ok (Interpreter.mk i.stack Direction.Left i.state
            (i.pos.1, row.length - 1) i.program) = Except.ok j := hup
        injection hup2 with hj
        subst hj
        dsimp only
        omega
      · injection hup with hj
        subst hj
        dsimp only
        omega
  · rintro j (hup | hup)
    · have b1 : Interpreter.update_pos { i with direction := Direction.Up }
          = (if i.pos.1 = 0 then
               Except.ok { i with direction := Direction.Up,
                                  pos := (i.program.lines - 1, i.pos.2) }
             else
               Except.ok { i with direction := Direction.Up,
                                  pos := (i.pos.1 - 1, i.pos.2) }) := rfl
      rw [b1] at hup
      split at hup
      · injection hup with hj
        subst hj
        dsimp only
        omega
      · injection hup with hj
        subst hj
        dsimp only
        omega
    · have b1 : Interpreter.update_pos { i with direction := Direction.Down }
          = (if i.pos.1 = i.program.lines - 1 then
               Except.ok { i with direction := Direction.Down,
                                  pos := (0, i.pos.2) }
             else
               Except.ok { i with direction := Direction.Down,
                                  pos := (i.pos.1 + 1, i.pos.2) }) := rfl
      rw [b1] at hup
      split at hup
      · injection hup with hj
        subst hj
        dsimp only
        omega
      · injection hup with hj
        subst hj
        dsimp only
        omega

/-- C4 witness: the amended bounds at the jagged-grid state with
position (0, 1), applied to the Right-move successor (which wraps to
column 0) and to the Down-move successor (which lands at row 1,
keeping column 1). -/
theorem update_pos_bounds_witness :
    ((0 : Nat) < (Program.mk [] [[' ', 'v'], ['@']]).lines
    ∧ (Program.mk [] [[' ', 'v'], ['@']]).instructions.get? 0
        = some [' ', 'v']
    ∧ (1 : Nat) < ([' ', 'v'] : List Char).length)
    ∧ ((0 : Nat) = 0 ∧ (0 : Nat) < ([' ', 'v'] : List Char).length)
    ∧ ((1 : Nat) < (Program.mk [] [[' ', 'v'], ['@']]).lines
      ∧ (1 : Nat) = 1) :=
  ⟨⟨by decide, rfl, by decide⟩,
    (update_pos_bounds
      { stack := ⟨[]⟩, direction := Direction.Down,
        state := State.Normal, pos := (0, 1),
        program := { values := [],
                     instructions := [[' ', 'v'], ['@']] } }
      [' ', 'v'] (by decide) rfl (by decide)).1
      { stack := ⟨[]⟩, direction := Direction.Right,
        state := State.Normal, pos := (0, 0),
        program := { values := [],
                     instructions := [[' ', 'v'], ['@']] } }
      (Or.inl rfl),
    (update_pos_bounds
      { stack := ⟨[]⟩, direction := Direction.Down,
        state := State.Normal, pos := (0, 1),
        program := { values := [],
                     instructions := [[' ', 'v'], ['@']] } }
      [' ', 'v'] (by decide) rfl (by decide)).2
      { stack := ⟨[]⟩, direction := Direction.Down,
        state := State.Normal, pos := (1, 1),
        program := { values := [],
                     instructions := [[' ', 'v'], ['@']] } }
      (Or.inr rfl)⟩

end Befunge
